import Mathlib

/-!
Verification of the pandos kernel sources against its specification.

Each definition below is a shallow embedding of a function (or of the
observable effect of a function) from the C sources under src/:
phase1 pcb.c / asl.c, phase2 scheduler.c / exceptions.c / interrupts.c,
phase3 sysSupport.c / vmSupport.c, phase4 deviceSupportDMA.c /
deviceSupportChar.c.  Machine integers are modelled as Nat (unsigned) or
Int (C int), with explicit `% 2 ^ 32` where 32-bit wraparound matters.
-/

/- ========================= Constants (const.h) ========================= -/

/-- page size in bytes (const.h PAGESIZE). -/
def PAGESIZE : Nat := 4096

/-- word size in bytes (const.h WORDLEN). -/
def WORDLEN : Nat := 4

/-- device interrupt line of the disks (const.h DISKINT). -/
def DISKINT : Nat := 3

/-- device interrupt line of the terminals (const.h TERMINT). -/
def TERMINT : Nat := 7

/-- devices per interrupt line (const.h DEVPERINT). -/
def DEVPERINT : Nat := 8

/-- number of device semaphores, terminals counted twice (const.h NUMDEVICES). -/
def NUMDEVICES : Nat := 48

/-- index of the pseudo-clock semaphore in deviceSem (const.h PSEUDOCLOCK). -/
def PSEUDOCLOCK : Nat := NUMDEVICES

/-- base of the user logical segment (const.h KUSEG). -/
def KUSEG : Nat := 0x80000000

/-- largest 32-bit address (const.h MAXADDR). -/
def MAXADDR : Nat := 0xFFFFFFFF

/-- 2 ^ 32, the modulus of 32-bit unsigned arithmetic. -/
def UINT32 : Nat := 0x100000000

/-- device status code READY (const.h). -/
def READY : Int := 1

/-- maximum printer write length (const.h PRINTER_MAXLEN). -/
def PRINTER_MAXLEN : Int := 128

/-- pages per U-proc page table (const.h MAXPAGES). -/
def MAXPAGES : Nat := 32

/-- number of swap-pool frames (const.h SWAP_POOL_SIZE = 2 * MAX_UPROCS). -/
def SWAP_POOL_SIZE : Nat := 16

/-- marker of a free swap-pool frame (const.h ASID_UNOCCUPIED). -/
def ASID_UNOCCUPIED : Int := -1

/-- EntryHi VPN field mask (const.h VPN_MASK). -/
def VPN_MASK : Nat := 0xFFFFF000

/-- EntryHi VPN field shift (const.h VPN_SHIFT). -/
def VPN_SHIFT : Nat := 12

/-- base VPN of the shared segment (const.h VPN_KUSEGSHARE_BASE). -/
def VPN_KUSEGSHARE_BASE : Nat := 0xC0000

/-- const.h macro IS_SHARED_VPN: a VPN at or above the shared-segment base. -/
def IS_SHARED_VPN (vpn : Nat) : Bool := decide (VPN_KUSEGSHARE_BASE ≤ vpn)

/-- EntryLo Valid bit (const.h PTE_VALID). -/
def PTE_VALID : Nat := 1 <<< 9

/-- EntryLo Dirty bit (const.h PTE_DIRTY). -/
def PTE_DIRTY : Nat := 1 <<< 10

/-- EntryLo / physical frame mask (const.h PFN_MASK). -/
def PFN_MASK : Nat := 0xFFFFF000

/-- status register bit 0, current global interrupt enable (const.h STATUS_IEC). -/
def STATUS_IEC : Nat := 1

/-- status register bit 27, local timer enable (const.h STATUS_TE). -/
def STATUS_TE : Nat := 1 <<< 27

/-- start of RAM (const.h RAMSTART). -/
def RAMSTART : Nat := 0x20000000

/-- start of the disk DMA buffers (const.h DISK_DMA_BASE). -/
def DISK_DMA_BASE : Nat := RAMSTART + 32 * PAGESIZE

/-- start of the flash DMA buffers (const.h FLASH_DMA_BASE). -/
def FLASH_DMA_BASE : Nat := DISK_DMA_BASE + 8 * PAGESIZE

/-- start of the swap pool (const.h SWAP_POOL_BASE). -/
def SWAP_POOL_BASE : Nat := FLASH_DMA_BASE + 8 * PAGESIZE

/- ============== C1: support-level syscall dispatch (sysSupport.c) ============== -/

/-- the five service routines the support-level dispatcher can invoke
(sysSupport.c syscallHandler switch cases 9..13). -/
inductive SupService where
  | terminateU
  | getTOD
  | writePrinter
  | writeTerminal
  | readTerminal
deriving Repr, DecidableEq

/-- outcome of sysSupport.c syscallHandler: how far the saved PC was advanced
(in bytes) and which service was invoked; `none` means the request fell to
programTrapHandler, which terminates the caller through sysTerminate (SYS9 path). -/
structure SupDispatch where
  pcDelta : Nat
  service : Option SupService
deriving Repr, DecidableEq

/-- shallow embedding of sysSupport.c syscallHandler (lines 294-323): the
service number is read from a0 of the saved general-exception state; if it is
in 9..13 the saved PC is advanced by one word and the matching routine runs,
otherwise programTrapHandler terminates the caller. -/
def supSyscallHandler (a0 : Int) : SupDispatch :=
  if 9 ≤ a0 ∧ a0 ≤ 13 then
    { pcDelta := WORDLEN
      service :=
        if a0 = 9 then some .terminateU
        else if a0 = 10 then some .getTOD
        else if a0 = 11 then some .writePrinter
        else if a0 = 12 then some .writeTerminal
        else some .readTerminal }
  else
    { pcDelta := 0, service := none }

/-- C1: the support-level dispatcher accepts only service numbers 9..13; every
number in 14..20 (disk/flash I/O, delay, logical P/V — all implemented in
phase4-6 and called by testers/dmaTest.c) is routed to programTrapHandler and
the caller is terminated with its saved PC not advanced, contradicting the
claim that 9..20 are each dispatched to their service routine. -/
theorem supSyscallHandler_rejects_14_to_20 :
    supSyscallHandler 9 = ⟨WORDLEN, some .terminateU⟩ ∧
    supSyscallHandler 10 = ⟨WORDLEN, some .getTOD⟩ ∧
    supSyscallHandler 11 = ⟨WORDLEN, some .writePrinter⟩ ∧
    supSyscallHandler 12 = ⟨WORDLEN, some .writeTerminal⟩ ∧
    supSyscallHandler 13 = ⟨WORDLEN, some .readTerminal⟩ ∧
    supSyscallHandler 14 = ⟨0, none⟩ ∧
    supSyscallHandler 15 = ⟨0, none⟩ ∧
    supSyscallHandler 16 = ⟨0, none⟩ ∧
    supSyscallHandler 17 = ⟨0, none⟩ ∧
    supSyscallHandler 18 = ⟨0, none⟩ ∧
    supSyscallHandler 19 = ⟨0, none⟩ ∧
    supSyscallHandler 20 = ⟨0, none⟩ := by
  decide

/- ============== C8: device semaphore index agreement ============== -/

/-- shallow embedding of the semaphore-index computation of
exceptions.c sysWaitIO (line 289):
semIdx = (lineNum - DISKINT + waitForTermRead) * DEVPERINT + devNum. -/
def sysWaitIOSemIdx (lineNum devNum waitForTermRead : Nat) : Nat :=
  (lineNum - DISKINT + waitForTermRead) * DEVPERINT + devNum

/-- shallow embedding of the semaphore index the device interrupt handler
V's (interrupts.c handleDeviceInterrupt, lines 52-103): devIdx =
(lineNum - DISKINT) * DEVPERINT + devNum, with DEVPERINT added when the
completion is a terminal receive. -/
def handlerSemIdx (lineNum devNum : Nat) (recvCompletion : Bool) : Nat :=
  let devIdx := (lineNum - DISKINT) * DEVPERINT + devNum
  if lineNum = TERMINT ∧ recvCompletion then devIdx + DEVPERINT else devIdx

/-- C8: SYS5 blocks the caller on index (line - 3 + termRead) * 8 + devNum,
and the interrupt handler V's exactly the index of the matching wait: for a
completion on (line, dev), the handler index equals the SYS5 index with
termRead = 1 exactly for terminal receive completions, and the terminal
receive index is the transmit index plus 8. -/
theorem waitio_interrupt_sem_index_agree
    (lineNum devNum termRead : Nat)
    (hline1 : DISKINT ≤ lineNum) (hline2 : lineNum ≤ TERMINT)
    (hdev : devNum < DEVPERINT) (htr : termRead ≤ 1) :
    sysWaitIOSemIdx lineNum devNum termRead =
      (lineNum - 3 + termRead) * 8 + devNum ∧
    (∀ recvCompletion : Bool, (recvCompletion = true → lineNum = TERMINT) →
      handlerSemIdx lineNum devNum recvCompletion =
        sysWaitIOSemIdx lineNum devNum (if recvCompletion then 1 else 0)) ∧
    handlerSemIdx TERMINT devNum true = handlerSemIdx TERMINT devNum false + DEVPERINT := by
  refine ⟨rfl, ?_, ?_⟩
  · intro recv hrecv
    cases recv with
    | false => simp [handlerSemIdx, sysWaitIOSemIdx]
    | true =>
        have h7 : lineNum = TERMINT := hrecv rfl
        subst h7
        simp [handlerSemIdx, sysWaitIOSemIdx, TERMINT, DISKINT, DEVPERINT]
        omega
  · simp [handlerSemIdx, sysWaitIOSemIdx, TERMINT, DISKINT, DEVPERINT]

/-- C8 witness: the index agreement evaluated at terminal 2: the receive
completion V's index 42, exactly where a SYS5 with termRead = 1 blocked, and
the transmit completion V's index 34, where a SYS5 with termRead = 0 blocked. -/
theorem waitio_interrupt_sem_index_agree_witness :
    sysWaitIOSemIdx 7 2 1 = (7 - 3 + 1) * 8 + 2 ∧
    handlerSemIdx 7 2 true = sysWaitIOSemIdx 7 2 1 ∧
    handlerSemIdx 7 2 false = sysWaitIOSemIdx 7 2 0 ∧
    handlerSemIdx TERMINT 2 true = handlerSemIdx TERMINT 2 false + DEVPERINT :=
  ⟨(waitio_interrupt_sem_index_agree 7 2 1 (by decide) (by decide) (by decide) (by decide)).1,
   (waitio_interrupt_sem_index_agree 7 2 1 (by decide) (by decide) (by decide)
      (by decide)).2.1 true (fun _ => rfl),
   (waitio_interrupt_sem_index_agree 7 2 0 (by decide) (by decide) (by decide)
      (by decide)).2.1 false (by decide),
   (waitio_interrupt_sem_index_agree 7 2 1 (by decide) (by decide) (by decide)
      (by decide)).2.2⟩

/- ============== C5: SYS14/SYS15 disk argument validation (deviceSupportDMA.c) ============== -/

/-- const.h GET_DISK_CYLINDER: bits 31-16 of DATA1. -/
def GET_DISK_CYLINDER (data1 : Nat) : Nat := (data1 &&& 0xFFFF0000) >>> 16

/-- const.h GET_DISK_HEAD: bits 15-8 of DATA1. -/
def GET_DISK_HEAD (data1 : Nat) : Nat := (data1 &&& 0x0000FF00) >>> 8

/-- const.h GET_DISK_SECTOR: bits 7-0 of DATA1. -/
def GET_DISK_SECTOR (data1 : Nat) : Nat := data1 &&& 0x000000FF

/-- deviceSupportDMA.c isValidAddr (line 16): the address is in the user
segment when it is at least KUSEG (no upper test; 32-bit wraparound of the
caller's arithmetic is made explicit at call sites). -/
def isValidAddrDMA (addr : Nat) : Prop := KUSEG ≤ addr

instance (addr : Nat) : Decidable (isValidAddrDMA addr) := by
  unfold isValidAddrDMA; infer_instance

/-- outcome of the argument phase of SYS14/SYS15: either the caller is
terminated as a program trap, or the request proceeds with the translated
(cylinder, head, sector) triple. -/
inductive DiskOutcome where
  | trap
  | proceed (cyl headNo sect : Nat)
deriving Repr, DecidableEq

/-- shallow embedding of the validation and sector translation of
deviceSupportDMA.c sysDiskPut (SYS14, lines 56-99): diskNo is checked
against [0..7] (disk 0 is NOT rejected), the page [addr, addr+4095] must lie
in KUSEG, and sectorNo against cyl*head*sect read from DATA1; then
cyl = sectorNo / (head*sect), head = rem / sect, sect = rem % sect. -/
def sysDiskPut (logicalAddr : Nat) (diskNo sectorNo : Int) (data1 : Nat) : DiskOutcome :=
  if diskNo < 0 ∨ 8 ≤ diskNo then .trap
  else if ¬ isValidAddrDMA logicalAddr ∨
          ¬ isValidAddrDMA ((logicalAddr + PAGESIZE - 1) % UINT32) then .trap
  else if sectorNo < 0 ∨
      (GET_DISK_CYLINDER data1 * GET_DISK_HEAD data1 * GET_DISK_SECTOR data1 : Int) ≤ sectorNo then
    .trap
  else
    .proceed (sectorNo.toNat / (GET_DISK_HEAD data1 * GET_DISK_SECTOR data1))
      (sectorNo.toNat % (GET_DISK_HEAD data1 * GET_DISK_SECTOR data1) / GET_DISK_SECTOR data1)
      (sectorNo.toNat % (GET_DISK_HEAD data1 * GET_DISK_SECTOR data1) % GET_DISK_SECTOR data1)

/-- shallow embedding of the validation and sector translation of
deviceSupportDMA.c sysDiskGet (SYS15, lines 127-167): identical to sysDiskPut
except that the disk number test is diskNo <= 0 || diskNo >= 8, rejecting
disk 0 (reserved for the backing store). -/
def sysDiskGet (logicalAddr : Nat) (diskNo sectorNo : Int) (data1 : Nat) : DiskOutcome :=
  if diskNo ≤ 0 ∨ 8 ≤ diskNo then .trap
  else if ¬ isValidAddrDMA logicalAddr ∨
          ¬ isValidAddrDMA ((logicalAddr + PAGESIZE - 1) % UINT32) then .trap
  else if sectorNo < 0 ∨
      (GET_DISK_CYLINDER data1 * GET_DISK_HEAD data1 * GET_DISK_SECTOR data1 : Int) ≤ sectorNo then
    .trap
  else
    .proceed (sectorNo.toNat / (GET_DISK_HEAD data1 * GET_DISK_SECTOR data1))
      (sectorNo.toNat % (GET_DISK_HEAD data1 * GET_DISK_SECTOR data1) / GET_DISK_SECTOR data1)
      (sectorNo.toNat % (GET_DISK_HEAD data1 * GET_DISK_SECTOR data1) % GET_DISK_SECTOR data1)

/-- C5 counterexample: SYS14 Disk-write does NOT terminate the caller for
disk-num = 0: with a valid user address, sector 5 and geometry
(cyl 32, head 2, sect 8) read from DATA1 = 0x00200208, sysDiskPut proceeds
to issue the write (to the backing-store disk), refuting the claim that both
SYS14 and SYS15 terminate when the disk number is 0. -/
theorem sysDiskPut_accepts_disk0 :
    sysDiskPut 0x80001000 0 5 0x00200208 = .proceed 0 0 5 ∧
    sysDiskGet 0x80001000 0 5 0x00200208 = .trap := by
  decide

/-- C5 (amended): SYS15 Disk-read terminates the calling U-proc when the
disk-number argument is 0, but SYS14 Disk-write does not — it validates
disk-num against [0..7] and accepts disk 0; for every disk-num outside
[0..7] (SYS14) resp. [1..7] (SYS15), or sector-num outside the device's
reported geometry (cyl times head times sect), the caller is terminated as
a program trap; and SYS14 with disk-num in [0..7] (including 0), a valid
user page and an in-range sector proceeds with the translated
(cylinder, head, sector). -/
theorem disk_validation_amended
    (addr : Nat) (d s : Int) (data1 : Nat) :
    (sysDiskGet addr 0 s data1 = .trap) ∧
    ((d < 0 ∨ 8 ≤ d) → sysDiskPut addr d s data1 = .trap) ∧
    ((d ≤ 0 ∨ 8 ≤ d) → sysDiskGet addr d s data1 = .trap) ∧
    ((s < 0 ∨ (GET_DISK_CYLINDER data1 * GET_DISK_HEAD data1 * GET_DISK_SECTOR data1 : Int) ≤ s) →
      sysDiskPut addr d s data1 = .trap ∧ sysDiskGet addr d s data1 = .trap) ∧
    ((0 ≤ d) → (d < 8) → (0 ≤ s) →
      (s < (GET_DISK_CYLINDER data1 * GET_DISK_HEAD data1 * GET_DISK_SECTOR data1 : Int)) →
      isValidAddrDMA addr → isValidAddrDMA ((addr + PAGESIZE - 1) % UINT32) →
      sysDiskPut addr d s data1 =
        .proceed (s.toNat / (GET_DISK_HEAD data1 * GET_DISK_SECTOR data1))
          (s.toNat % (GET_DISK_HEAD data1 * GET_DISK_SECTOR data1) / GET_DISK_SECTOR data1)
          (s.toNat % (GET_DISK_HEAD data1 * GET_DISK_SECTOR data1) % GET_DISK_SECTOR data1)) := by
  refine ⟨?_, ?_, ?_, ?_, ?_⟩
  · simp [sysDiskGet]
  · intro hd
    simp [sysDiskPut, hd]
  · intro hd
    simp [sysDiskGet, hd]
  · intro hs
    constructor
    · simp only [sysDiskPut]
      split_ifs with h1 h2
      · rfl
      · rfl
      · rfl
    · simp only [sysDiskGet]
      split_ifs with h1 h2
      · rfl
      · rfl
      · rfl
  · intro h0 h8 hs0 hsm haddr haddr2
    simp only [sysDiskPut]
    split_ifs with h1 h2 h3
    · omega
    · exact absurd h2 (by push_neg; exact ⟨haddr, haddr2⟩)
    · rcases h3 with h3 | h3
      · omega
      · omega
    · rfl

/-- C5 witness: the amended validation evaluated with geometry (32, 2, 8)
read from DATA1 = 0x00200208 (512 sectors): SYS15 rejects disk 0, both
calls reject disk 9 and sector 700, and SYS14 at a valid user address
proceeds for disk 2 sector 5 — and also for disk 0 — with translation
(cyl 0, head 0, sect 5). -/
theorem disk_validation_amended_witness :
    sysDiskGet 0x80001000 0 5 0x00200208 = .trap ∧
    sysDiskPut 0x80001000 9 5 0x00200208 = .trap ∧
    sysDiskGet 0x80001000 9 5 0x00200208 = .trap ∧
    sysDiskPut 0x80001000 2 700 0x00200208 = .trap ∧
    sysDiskGet 0x80001000 2 700 0x00200208 = .trap ∧
    sysDiskPut 0x80001000 2 5 0x00200208 = .proceed 0 0 5 ∧
    sysDiskPut 0x80001000 0 5 0x00200208 = .proceed 0 0 5 :=
  ⟨(disk_validation_amended 0x80001000 9 5 0x00200208).1,
   (disk_validation_amended 0x80001000 9 5 0x00200208).2.1 (by decide),
   (disk_validation_amended 0x80001000 9 5 0x00200208).2.2.1 (by decide),
   ((disk_validation_amended 0x80001000 2 700 0x00200208).2.2.2.1 (by decide)).1,
   ((disk_validation_amended 0x80001000 2 700 0x00200208).2.2.2.1 (by decide)).2,
   (disk_validation_amended 0x80001000 2 5 0x00200208).2.2.2.2
     (by decide) (by decide) (by decide) (by decide) (by decide) (by decide),
   (disk_validation_amended 0x80001000 0 5 0x00200208).2.2.2.2
     (by decide) (by decide) (by decide) (by decide) (by decide) (by decide)⟩

/- ============== C3: scheduler empty-queue cases (scheduler.c) ============== -/

/-- nucleus state consulted by scheduler.c scheduler(): the ready queue
(head-first order of the circular queue, head = tail->next), the live-process
count, the soft-block count and the processor status register. -/
structure NucleusState where
  readyQueue : List Nat
  procCnt : Int
  softBlockCnt : Int
  status : Nat
deriving Repr, DecidableEq

/-- the four ways scheduler.c scheduler() can leave: HALT(), PANIC(),
enabling interrupts / disabling the PLT and executing WAIT(), or dispatching
the dequeued head of the ready queue for a fresh quantum. -/
inductive SchedAction where
  | halt
  | panic
  | waitForInterrupt (newStatus : Nat)
  | dispatch (p : Nat) (rest : List Nat)
deriving Repr, DecidableEq

/-- shallow embedding of scheduler.c scheduler() (lines 88-114):
removeProcQ on the ready queue; on empty queue HALT when procCnt = 0,
else WAIT with interrupts enabled (status | STATUS_IEC) and the local timer
disabled (status & ~STATUS_TE) when procCnt > 0 and softBlockCnt > 0, else
PANIC; on a non-empty queue the head becomes the current process.  The 32-bit
complement ~STATUS_TE is written MAXADDR ^^^ STATUS_TE. -/
def scheduler (st : NucleusState) : SchedAction :=
  match st.readyQueue with
  | [] =>
    if st.procCnt = 0 then .halt
    else if 0 < st.procCnt ∧ 0 < st.softBlockCnt then
      .waitForInterrupt ((st.status ||| STATUS_IEC) &&& (MAXADDR ^^^ STATUS_TE))
    else .panic
  | p :: rest => .dispatch p rest

/-- how control leaves the nucleus interrupt handlers (interrupts.c
handleDeviceInterrupt / handleIntervalTimer / interruptHandler tails): with
no current process — exactly the situation after the scheduler's WAIT() is
broken by an interrupt — scheduler() runs again; otherwise the saved state
is reloaded. -/
inductive InterruptReturn where
  | resumeCurrent
  | reschedule (a : SchedAction)
deriving Repr, DecidableEq

/-- shallow embedding of the common tail of the interrupt handlers
(interrupts.c lines 96-103, 176-183, 235-239). -/
def interruptReturnPath (currentProc : Option Nat) (st : NucleusState) : InterruptReturn :=
  match currentProc with
  | none => .reschedule (scheduler st)
  | some _ => .resumeCurrent

/-- C3: on an empty ready queue the scheduler halts when no live process
remains; when live processes exist and at least one is soft-blocked it WAITs
with interrupts enabled (bit 0 set) and the per-processor timer disabled
(bit 27 clear), and the interrupt that breaks the WAIT re-enters the
scheduler, which again dequeues the head of the ready queue; otherwise it
panics. -/
theorem scheduler_empty_queue_cases (st : NucleusState) (hq : st.readyQueue = []) :
    (st.procCnt = 0 → scheduler st = .halt) ∧
    (0 < st.procCnt → 0 < st.softBlockCnt →
      scheduler st =
        .waitForInterrupt ((st.status ||| STATUS_IEC) &&& (MAXADDR ^^^ STATUS_TE)) ∧
      Nat.testBit ((st.status ||| STATUS_IEC) &&& (MAXADDR ^^^ STATUS_TE)) 0 = true ∧
      Nat.testBit ((st.status ||| STATUS_IEC) &&& (MAXADDR ^^^ STATUS_TE)) 27 = false ∧
      (∀ st2 : NucleusState, interruptReturnPath none st2 = .reschedule (scheduler st2)) ∧
      (∀ (st2 : NucleusState) (p : Nat) (rest : List Nat),
        st2.readyQueue = p :: rest → scheduler st2 = .dispatch p rest)) ∧
    (0 < st.procCnt → st.softBlockCnt ≤ 0 → scheduler st = .panic) := by
  refine ⟨?_, ?_, ?_⟩
  · intro h0
    simp [scheduler, hq, h0]
  · intro hp hs
    refine ⟨?_, ?_, ?_, ?_, ?_⟩
    · have hne : ¬ st.procCnt = 0 := by omega
      simp [scheduler, hq, hne, hp, hs]
    · have hm0 : Nat.testBit (MAXADDR ^^^ STATUS_TE) 0 = true := by decide
      have h10 : Nat.testBit (STATUS_IEC) 0 = true := by decide
      rw [Nat.testBit_land, Nat.testBit_lor, hm0, h10]
      simp
    · have hm27 : Nat.testBit (MAXADDR ^^^ STATUS_TE) 27 = false := by decide
      rw [Nat.testBit_land, hm27]
      simp
    · intro st2
      rfl
    · intro st2 p rest hq2
      simp [scheduler, hq2]
  · intro hp hs
    have hne : ¬ st.procCnt = 0 := by omega
    have hno : ¬ (0 < st.procCnt ∧ 0 < st.softBlockCnt) := by omega
    simp [scheduler, hq, hne, hno]

/-- C3 witness: the scheduler cases evaluated on concrete empty-queue
states, including the post-WAIT retry that dequeues the head of the now
non-empty ready queue. -/
theorem scheduler_empty_queue_cases_witness :
    scheduler ⟨[], 0, 0, 0x08000004⟩ = .halt ∧
    scheduler ⟨[], 2, 1, 0x08000004⟩ =
      .waitForInterrupt ((0x08000004 ||| STATUS_IEC) &&& (MAXADDR ^^^ STATUS_TE)) ∧
    Nat.testBit ((0x08000004 ||| STATUS_IEC) &&& (MAXADDR ^^^ STATUS_TE)) 0 = true ∧
    Nat.testBit ((0x08000004 ||| STATUS_IEC) &&& (MAXADDR ^^^ STATUS_TE)) 27 = false ∧
    interruptReturnPath none ⟨[9], 2, 1, 0x08000004⟩ =
      .reschedule (scheduler ⟨[9], 2, 1, 0x08000004⟩) ∧
    scheduler ⟨[9], 2, 1, 0x08000004⟩ = .dispatch 9 [] ∧
    scheduler ⟨[], 2, 0, 0x08000004⟩ = .panic :=
  ⟨(scheduler_empty_queue_cases ⟨[], 0, 0, 0x08000004⟩ rfl).1 rfl,
   ((scheduler_empty_queue_cases ⟨[], 2, 1, 0x08000004⟩ rfl).2.1 (by decide) (by decide)).1,
   ((scheduler_empty_queue_cases ⟨[], 2, 1, 0x08000004⟩ rfl).2.1 (by decide) (by decide)).2.1,
   ((scheduler_empty_queue_cases ⟨[], 2, 1, 0x08000004⟩ rfl).2.1 (by decide) (by decide)).2.2.1,
   ((scheduler_empty_queue_cases ⟨[], 2, 1, 0x08000004⟩ rfl).2.1 (by decide)
      (by decide)).2.2.2.1 ⟨[9], 2, 1, 0x08000004⟩,
   ((scheduler_empty_queue_cases ⟨[], 2, 1, 0x08000004⟩ rfl).2.1 (by decide)
      (by decide)).2.2.2.2 ⟨[9], 2, 1, 0x08000004⟩ 9 [] rfl,
   (scheduler_empty_queue_cases ⟨[], 2, 0, 0x08000004⟩ rfl).2.2 (by decide) (by decide)⟩

/- ============== C4: SYS2 on a pseudo-clock waiter and invariant I4 ============== -/

/-- the nucleus bookkeeping touched by SYS7 and by termination of a blocked
process: the deviceSem array (indices 0..NUMDEVICES, the last one being the
pseudo-clock), the soft-block counter, and the per-semaphore queues of
blocked pcbs (the ASL projection onto the device semaphores). -/
structure NucleusSems where
  deviceSem : Nat → Int
  softBlockCnt : Int
  blockedQ : Nat → List Nat

/-- shallow embedding of exceptions.c sysWaitForClock (lines 336-341):
decrement deviceSem[PSEUDOCLOCK], increment softBlockCnt, and block the
caller at the tail of that semaphore's queue (via waitOnSem/insertBlocked). -/
def sysWaitForClock (p : Nat) (st : NucleusSems) : NucleusSems :=
  { deviceSem := fun i =>
      if i = PSEUDOCLOCK then st.deviceSem PSEUDOCLOCK - 1 else st.deviceSem i
    softBlockCnt := st.softBlockCnt + 1
    blockedQ := fun i =>
      if i = PSEUDOCLOCK then st.blockedQ PSEUDOCLOCK ++ [p] else st.blockedQ i }

/-- shallow embedding of the blocked-process branch of exceptions.c
terminateProcHelper (lines 130-140) for a process p blocked on
deviceSem[semIdx]: outBlocked removes p from the semaphore's queue; the C
pointer test `sem >= deviceSem && sem < deviceSem + NUMDEVICES` holds for
&deviceSem[semIdx] exactly when semIdx < NUMDEVICES, in which case only
softBlockCnt is decremented; otherwise (which includes the pseudo-clock
semaphore at index NUMDEVICES) the semaphore value is re-incremented and
softBlockCnt is left unchanged. -/
def terminateBlockedProc (semIdx p : Nat) (st : NucleusSems) : NucleusSems :=
  let removed : NucleusSems :=
    { st with blockedQ := fun i =>
        if i = semIdx then (st.blockedQ semIdx).erase p else st.blockedQ i }
  if semIdx < NUMDEVICES then
    { removed with softBlockCnt := removed.softBlockCnt - 1 }
  else
    { removed with deviceSem := fun i =>
        if i = semIdx then removed.deviceSem semIdx + 1 else removed.deviceSem i }

/-- number of live processes blocked on a device semaphore or on the
pseudo-clock semaphore (the right-hand side of invariant I4). -/
def totalSoftBlocked (st : NucleusSems) : Nat :=
  (List.range (NUMDEVICES + 1)).foldl (fun acc i => acc + (st.blockedQ i).length) 0

/-- invariant I4: softBlockCnt equals the number of live processes blocked on
a device or pseudo-clock semaphore. -/
def I4 (st : NucleusSems) : Prop :=
  st.softBlockCnt = (totalSoftBlocked st : Int)

instance (st : NucleusSems) : Decidable (I4 st) := by
  unfold I4; infer_instance

/-- the idle nucleus bookkeeping: all semaphores 0, counter 0, no waiters. -/
def c4_st0 : NucleusSems := ⟨fun _ => 0, 0, fun _ => []⟩

/-- bookkeeping after pcb 7 performs SYS7 (blocked on the pseudo-clock). -/
def c4_st1 : NucleusSems := sysWaitForClock 7 c4_st0

/-- bookkeeping after pcb 7, still blocked on the pseudo-clock, is terminated
by SYS2 (terminateProcHelper). -/
def c4_st2 : NucleusSems := terminateBlockedProc PSEUDOCLOCK 7 c4_st1

/-- C4: terminating a process blocked on the pseudo-clock semaphore does NOT
decrement softBlockCnt — the device-range test in terminateProcHelper
excludes index NUMDEVICES — so invariant I4, true after the SYS7, is broken
by the termination: the counter stays 1 while no blocked process remains,
and the pseudo-clock semaphore is wrongly re-incremented. -/
theorem terminate_pseudoclock_breaks_I4 :
    I4 c4_st1 ∧
    ¬ I4 c4_st2 ∧
    c4_st2.softBlockCnt = c4_st1.softBlockCnt ∧
    c4_st2.softBlockCnt = 1 ∧
    totalSoftBlocked c4_st2 = 0 ∧
    c4_st2.deviceSem PSEUDOCLOCK = c4_st1.deviceSem PSEUDOCLOCK + 1 := by
  refine ⟨?_, ?_, rfl, rfl, ?_, rfl⟩
  · decide
  · decide
  · decide

/- ============== C10: SYS6 Get-CPU-time frame effect (exceptions.c) ============== -/

/-- the saved exception state registers relevant to SYS6. -/
structure SavedState where
  s_v0 : Int
  s_pc : Nat
  s_a0 : Int
deriving Repr, DecidableEq

/-- the nucleus state visible to the kernel syscall services: ready queue,
current process, per-pcb accumulated CPU time (p_time), soft-block count,
device semaphores and the start-of-quantum timestamp. -/
structure KernelState where
  readyQueue : List Nat
  currentProc : Option Nat
  pTime : Nat → Nat
  softBlockCnt : Int
  deviceSem : Nat → Int
  quantumStartTime : Nat

/-- shallow embedding of exceptions.c sysGetCPUTime (lines 313-319): read the
time of day, compute elapsed = now - quantumStartTime, store
currentProc->p_time + elapsed into v0 of the saved state, and resume; no
other field of the nucleus state or of the saved state is written. -/
def sysGetCPUTime (st : KernelState) (saved : SavedState) (now : Nat) :
    KernelState × SavedState :=
  (st, { saved with
    s_v0 := ((st.pTime (st.currentProc.getD 0) + (now - st.quantumStartTime) : Nat) : Int) })

/-- C10: SYS6 writes accumulated time plus the elapsed part of the current
quantum into v0 and changes nothing else: the accumulated-time map, the
ready queue, the current process, the soft-block count, the semaphores, the
quantum timestamp and the other saved registers are all unchanged (in
particular the elapsed quantum is not folded into p_time). -/
theorem sysGetCPUTime_frame (st : KernelState) (saved : SavedState) (now : Nat)
    (c : Nat) (hc : st.currentProc = some c) :
    (sysGetCPUTime st saved now).2.s_v0 =
      ((st.pTime c + (now - st.quantumStartTime) : Nat) : Int) ∧
    (sysGetCPUTime st saved now).1 = st ∧
    (sysGetCPUTime st saved now).1.pTime = st.pTime ∧
    (sysGetCPUTime st saved now).1.readyQueue = st.readyQueue ∧
    (sysGetCPUTime st saved now).1.currentProc = st.currentProc ∧
    (sysGetCPUTime st saved now).1.softBlockCnt = st.softBlockCnt ∧
    (sysGetCPUTime st saved now).1.deviceSem = st.deviceSem ∧
    (sysGetCPUTime st saved now).1.quantumStartTime = st.quantumStartTime ∧
    (sysGetCPUTime st saved now).2.s_pc = saved.s_pc ∧
    (sysGetCPUTime st saved now).2.s_a0 = saved.s_a0 := by
  refine ⟨?_, rfl, rfl, rfl, rfl, rfl, rfl, rfl, rfl, rfl⟩
  simp [sysGetCPUTime, hc]

/-- C10 witness: the frame property of SYS6 evaluated on a concrete state. -/
theorem sysGetCPUTime_frame_witness :
    (sysGetCPUTime ⟨[2], some 1, fun _ => 300, 0, fun _ => 0, 1000⟩ ⟨0, 64, 6⟩ 1700).2.s_v0 =
      (((⟨[2], some 1, fun _ => 300, 0, fun _ => 0, 1000⟩ : KernelState).pTime 1 +
        (1700 - 1000) : Nat) : Int) ∧
    (sysGetCPUTime ⟨[2], some 1, fun _ => 300, 0, fun _ => 0, 1000⟩ ⟨0, 64, 6⟩ 1700).1 =
      ⟨[2], some 1, fun _ => 300, 0, fun _ => 0, 1000⟩ ∧
    (sysGetCPUTime ⟨[2], some 1, fun _ => 300, 0, fun _ => 0, 1000⟩ ⟨0, 64, 6⟩ 1700).1.pTime =
      (⟨[2], some 1, fun _ => 300, 0, fun _ => 0, 1000⟩ : KernelState).pTime ∧
    (sysGetCPUTime ⟨[2], some 1, fun _ => 300, 0, fun _ => 0, 1000⟩ ⟨0, 64, 6⟩ 1700).1.readyQueue =
      (⟨[2], some 1, fun _ => 300, 0, fun _ => 0, 1000⟩ : KernelState).readyQueue ∧
    (sysGetCPUTime ⟨[2], some 1, fun _ => 300, 0, fun _ => 0, 1000⟩ ⟨0, 64, 6⟩ 1700).1.currentProc =
      (⟨[2], some 1, fun _ => 300, 0, fun _ => 0, 1000⟩ : KernelState).currentProc ∧
    (sysGetCPUTime ⟨[2], some 1, fun _ => 300, 0, fun _ => 0, 1000⟩ ⟨0, 64, 6⟩ 1700).1.softBlockCnt =
      (⟨[2], some 1, fun _ => 300, 0, fun _ => 0, 1000⟩ : KernelState).softBlockCnt ∧
    (sysGetCPUTime ⟨[2], some 1, fun _ => 300, 0, fun _ => 0, 1000⟩ ⟨0, 64, 6⟩ 1700).1.deviceSem =
      (⟨[2], some 1, fun _ => 300, 0, fun _ => 0, 1000⟩ : KernelState).deviceSem ∧
    (sysGetCPUTime ⟨[2], some 1, fun _ => 300, 0, fun _ => 0, 1000⟩ ⟨0, 64, 6⟩ 1700).1.quantumStartTime =
      (⟨[2], some 1, fun _ => 300, 0, fun _ => 0, 1000⟩ : KernelState).quantumStartTime ∧
    (sysGetCPUTime ⟨[2], some 1, fun _ => 300, 0, fun _ => 0, 1000⟩ ⟨0, 64, 6⟩ 1700).2.s_pc = 64 ∧
    (sysGetCPUTime ⟨[2], some 1, fun _ => 300, 0, fun _ => 0, 1000⟩ ⟨0, 64, 6⟩ 1700).2.s_a0 = 6 :=
  sysGetCPUTime_frame ⟨[2], some 1, fun _ => 300, 0, fun _ => 0, 1000⟩ ⟨0, 64, 6⟩ 1700 1 rfl

/- ============== C2, C6: the pager (vmSupport.c uTLB_ExceptionHandler) ============== -/

/-- a page table entry: the pair (EntryHi, EntryLo) (types.h pte_t). -/
structure PTEntry where
  pte_entryHI : Nat
  pte_entryLO : Nat
deriving Repr, DecidableEq

/-- a swap-pool table entry (types.h): occupying ASID (ASID_UNOCCUPIED when
free), occupying VPN, and the back-pointer to the mapping page-table entry.
The C back-pointer `pte_t *spte_pte` always points at
&sup->sup_privatePgTbl[pageIdx] of some U-proc, so it is modelled as the
pair (owner asid, page-table index); the NULL of a free entry is modelled
as (0, 0) and never dereferenced. -/
structure SwapPoolEntry where
  spte_asid : Int
  spte_vpn : Nat
  spte_pte : Int × Nat
deriving Repr, DecidableEq

/-- the swap-pool entry value used when a free slot is read (never happens
for in-range frame indices; stands for the C NULL-initialised entry). -/
def SPTE_FREE : SwapPoolEntry := ⟨ASID_UNOCCUPIED, 0, (0, 0)⟩

/-- the state the pager reads and writes: the 16-entry swap-pool table, the
static FIFO cursor of allocateFrame, and the private page tables of the
U-procs (indexed by ASID and page index). -/
structure PagerState where
  swapPoolTable : List SwapPoolEntry
  nextFrameIdx : Nat
  privatePgTbl : Int → Nat → PTEntry

/-- pointwise update of one page-table entry (the C writes through a pte_t
pointer). -/
def updPte (tbl : Int → Nat → PTEntry) (asid : Int) (idx : Nat)
    (f : PTEntry → PTEntry) : Int → Nat → PTEntry :=
  fun a i => if a = asid ∧ i = idx then f (tbl a i) else tbl a i

/-- shallow embedding of vmSupport.c allocateFrame (lines 145-164): first
unoccupied frame, else the FIFO cursor (which is then advanced mod 16).
Returns (chosen frame, new cursor). -/
def allocateFrame (table : List SwapPoolEntry) (next : Nat) : Nat × Nat :=
  match table.findIdx? (fun e => e.spte_asid == ASID_UNOCCUPIED) with
  | some i => (i, next)
  | none => (next, (next + 1) % SWAP_POOL_SIZE)

/-- the observable actions of one run of the pager, in program order:
mutex operations, the interrupt-disable windows, page-table and TLB writes,
and the backing-store transfers (writeFlashPage / readFlashPage). -/
inductive PagerEvent where
  | acquireSwapMutex
  | intDisable
  | setPTEInvalid (asid : Int) (pageIdx : Nat)
  | tlbFlushEntry (asid : Int) (pageIdx : Nat)
  | intEnable
  | writeBackingStore (asid : Int) (blockNum : Nat)
  | readBackingStore (asid : Int) (blockNum : Nat)
  | updateSwapPoolEntry (frameIdx : Nat)
  | setPTEValidDirty (asid : Int) (pageIdx : Nat)
  | tlbWriteEntry (asid : Int) (pageIdx : Nat)
  | releaseSwapMutex
  | resumeProcess
deriving Repr, DecidableEq

/-- the faulting VPN extracted from the saved EntryHi
(vmSupport.c line 198: (s_entryHI & VPN_MASK) >> VPN_SHIFT). -/
def pagerFaultVpn (savedEntryHI : Nat) : Nat :=
  (savedEntryHI &&& VPN_MASK) >>> VPN_SHIFT

/-- the page-table slot the pager picks for a faulting VPN
(vmSupport.c line 199: pageIdx = vpn % MAXPAGES — for every VPN, shared or
private; there is no separate shared-segment mapping). -/
def pagerPageIdx (vpn : Nat) : Nat := vpn % MAXPAGES

/-- the frame the pager picks (vmSupport.c line 202). -/
def pagerFrameIdx (st : PagerState) : Nat :=
  (allocateFrame st.swapPoolTable st.nextFrameIdx).1

/-- the swap-pool entry of the picked frame (vmSupport.c lines 205-208). -/
def pagerVictim (st : PagerState) : SwapPoolEntry :=
  st.swapPoolTable.getD (pagerFrameIdx st) SPTE_FREE

/-- the occupancy test of vmSupport.c line 205. -/
def pagerOccupied (st : PagerState) : Prop :=
  (pagerVictim st).spte_asid ≠ ASID_UNOCCUPIED

instance (st : PagerState) : Decidable (pagerOccupied st) := by
  unfold pagerOccupied; infer_instance

/-- the eviction prefix of the pager's action sequence (vmSupport.c steps
8.(a)-8.(c), lines 205-243): with interrupts disabled, clear V in the old
PTE and flush the matching TLB entry; then (interrupts re-enabled) write the
frame to the old owner's backing store at block oldVpn % MAXPAGES. -/
def pagerEvictEvents (st : PagerState) : List PagerEvent :=
  if pagerOccupied st then
    [.intDisable,
     .setPTEInvalid (pagerVictim st).spte_pte.1 (pagerVictim st).spte_pte.2,
     .tlbFlushEntry (pagerVictim st).spte_pte.1 (pagerVictim st).spte_pte.2,
     .intEnable,
     .writeBackingStore (pagerVictim st).spte_asid ((pagerVictim st).spte_vpn % MAXPAGES)]
  else []

/-- the complete action sequence of one successful run of
vmSupport.c uTLB_ExceptionHandler (lines 181-301): acquire the swap-pool
mutex; evict if the frame is occupied; read the faulting page from the
backing store into the frame (step 9); update the swap-pool entry (step 10);
with interrupts disabled, set PFN|D|V in the PTE and write the TLB entry
(steps 11-12); release the mutex and resume.  (A failed flash operation
aborts to programTrapHandler after releasing the mutex; the events up to the
failure are a prefix of this sequence.) -/
def pagerTrace (st : PagerState) (supAsid : Int) (savedEntryHI : Nat) : List PagerEvent :=
  [.acquireSwapMutex] ++ pagerEvictEvents st ++
  [.readBackingStore supAsid (pagerPageIdx (pagerFaultVpn savedEntryHI)),
   .updateSwapPoolEntry (pagerFrameIdx st),
   .intDisable,
   .setPTEValidDirty supAsid (pagerPageIdx (pagerFaultVpn savedEntryHI)),
   .tlbWriteEntry supAsid (pagerPageIdx (pagerFaultVpn savedEntryHI)),
   .intEnable,
   .releaseSwapMutex,
   .resumeProcess]

/-- shallow embedding of the state change of vmSupport.c
uTLB_ExceptionHandler: the victim's PTE (reached through the stored
back-pointer) loses its Valid bit; the swap-pool entry of the chosen frame
is overwritten with (faulting ASID, faulting VPN, pointer to the faulting
process's PRIVATE page table at index vpn % MAXPAGES) — steps 10-11 of the
source; the new PTE gets PFN of the frame, Dirty and Valid. -/
def uTLB_ExceptionHandler (st : PagerState) (supAsid : Int) (savedEntryHI : Nat) :
    PagerState × List PagerEvent :=
  ( { swapPoolTable :=
        st.swapPoolTable.set (pagerFrameIdx st)
          ⟨supAsid, pagerFaultVpn savedEntryHI,
            (supAsid, pagerPageIdx (pagerFaultVpn savedEntryHI))⟩
      nextFrameIdx := (allocateFrame st.swapPoolTable st.nextFrameIdx).2
      privatePgTbl :=
        updPte
          (if pagerOccupied st then
            updPte st.privatePgTbl (pagerVictim st).spte_pte.1 (pagerVictim st).spte_pte.2
              (fun pte => ⟨pte.pte_entryHI, pte.pte_entryLO &&& (MAXADDR ^^^ PTE_VALID)⟩)
          else st.privatePgTbl)
          supAsid (pagerPageIdx (pagerFaultVpn savedEntryHI))
          (fun pte => ⟨pte.pte_entryHI,
            ((SWAP_POOL_BASE + pagerFrameIdx st * PAGESIZE) &&& PFN_MASK) |||
              PTE_DIRTY ||| PTE_VALID⟩) },
    pagerTrace st supAsid savedEntryHI )

/-- C6: when the chosen frame is occupied, the pager's actions are exactly:
acquire the mutex; inside an interrupts-disabled window invalidate the
victim's PTE and flush its TLB entry; only then write the frame to the
backing store; then read the required page from the backing store into the
frame; and only after that, inside a second interrupts-disabled window, set
the new PTE valid and write the TLB entry; when the frame is free the same
sequence runs without the eviction prefix. -/
theorem pager_evict_install_ordering (st : PagerState) (supAsid : Int) (savedEntryHI : Nat) :
    (pagerOccupied st →
      pagerTrace st supAsid savedEntryHI =
        [.acquireSwapMutex,
         .intDisable,
         .setPTEInvalid (pagerVictim st).spte_pte.1 (pagerVictim st).spte_pte.2,
         .tlbFlushEntry (pagerVictim st).spte_pte.1 (pagerVictim st).spte_pte.2,
         .intEnable,
         .writeBackingStore (pagerVictim st).spte_asid ((pagerVictim st).spte_vpn % MAXPAGES),
         .readBackingStore supAsid (pagerPageIdx (pagerFaultVpn savedEntryHI)),
         .updateSwapPoolEntry (pagerFrameIdx st),
         .intDisable,
         .setPTEValidDirty supAsid (pagerPageIdx (pagerFaultVpn savedEntryHI)),
         .tlbWriteEntry supAsid (pagerPageIdx (pagerFaultVpn savedEntryHI)),
         .intEnable,
         .releaseSwapMutex,
         .resumeProcess]) ∧
    (¬ pagerOccupied st →
      pagerTrace st supAsid savedEntryHI =
        [.acquireSwapMutex,
         .readBackingStore supAsid (pagerPageIdx (pagerFaultVpn savedEntryHI)),
         .updateSwapPoolEntry (pagerFrameIdx st),
         .intDisable,
         .setPTEValidDirty supAsid (pagerPageIdx (pagerFaultVpn savedEntryHI)),
         .tlbWriteEntry supAsid (pagerPageIdx (pagerFaultVpn savedEntryHI)),
         .intEnable,
         .releaseSwapMutex,
         .resumeProcess]) := by
  constructor
  · intro hocc
    simp [pagerTrace, pagerEvictEvents, hocc]
  · intro hfree
    simp [pagerTrace, pagerEvictEvents, hfree]

/-- the pager state at support-level start-up (initSwapStructs,
vmSupport.c lines 34-49): all sixteen frames free, FIFO cursor 0, page
tables as built by initProc.c initPageTable. -/
def pagerInit : PagerState :=
  ⟨List.replicate SWAP_POOL_SIZE SPTE_FREE,
   0,
   fun a i => ⟨((0x80000 + i) <<< VPN_SHIFT) ||| (a.toNat <<< 6), PTE_DIRTY⟩⟩

/-- an occupied single-victim pager state used as the C6 witness: every
frame holds a page of ASID 2 (frame f holds VPN 0x80000 + f mapped through
ASID 2's private page table). -/
def c6_state : PagerState :=
  ⟨(List.range SWAP_POOL_SIZE).map (fun f => ⟨2, 0x80000 + f, (2, f)⟩),
   0,
   fun a i => ⟨((0x80000 + i) <<< VPN_SHIFT) ||| (a.toNat <<< 6), PTE_DIRTY⟩⟩

/-- C6 witness: the ordering theorem evaluated on a fully occupied pool
(victim frame 0, owner ASID 2, VPN 0x80000, PTE slot 0 — faulting ASID 3,
VPN 0x80007) and on the free start-up pool. -/
theorem pager_evict_install_ordering_witness :
    pagerTrace c6_state 3 0x800070C0 =
      [.acquireSwapMutex,
       .intDisable,
       .setPTEInvalid 2 0,
       .tlbFlushEntry 2 0,
       .intEnable,
       .writeBackingStore 2 0,
       .readBackingStore 3 7,
       .updateSwapPoolEntry 0,
       .intDisable,
       .setPTEValidDirty 3 7,
       .tlbWriteEntry 3 7,
       .intEnable,
       .releaseSwapMutex,
       .resumeProcess] ∧
    pagerTrace pagerInit 3 0x800070C0 =
      [.acquireSwapMutex,
       .readBackingStore 3 7,
       .updateSwapPoolEntry 0,
       .intDisable,
       .setPTEValidDirty 3 7,
       .tlbWriteEntry 3 7,
       .intEnable,
       .releaseSwapMutex,
       .resumeProcess] :=
  ⟨(pager_evict_install_ordering c6_state 3 0x800070C0).1 (by decide),
   (pager_evict_install_ordering pagerInit 3 0x800070C0).2 (by decide)⟩

/-- C2: a TLB-invalid fault on shared-segment VPN 0xC0005 (EntryHi
0xC00050C0, ASID 3) is handled exactly like a private fault: the pager maps
it through slot vpn % 32 = 5 of the FAULTING process's private page table,
records occupying ASID 3 (not 0) and a back-pointer into ASID 3's private
table in the swap-pool entry, and runs a full replacement with the
backing-store read — there is no global-page-table path and no
already-valid early release of the mutex. -/
theorem pager_shared_vpn_uses_private_table :
    IS_SHARED_VPN 0xC0005 = true ∧
    pagerFaultVpn 0xC00050C0 = 0xC0005 ∧
    pagerPageIdx 0xC0005 = 5 ∧
    (uTLB_ExceptionHandler pagerInit 3 0xC00050C0).1.swapPoolTable.getD 0 SPTE_FREE =
      ⟨3, 0xC0005, (3, 5)⟩ ∧
    (uTLB_ExceptionHandler pagerInit 3 0xC00050C0).2 =
      [.acquireSwapMutex,
       .readBackingStore 3 5,
       .updateSwapPoolEntry 0,
       .intDisable,
       .setPTEValidDirty 3 5,
       .tlbWriteEntry 3 5,
       .intEnable,
       .releaseSwapMutex,
       .resumeProcess] := by
  refine ⟨rfl, rfl, rfl, ?_, ?_⟩
  · decide
  · decide

/- ============== C9: SYS11 Write-to-printer (sysSupport.c) ============== -/

/-- sysSupport.c isValidAddr (lines 34-36): KUSEG <= addr <= MAXADDR. -/
def isValidAddrChar (addr : Nat) : Prop := KUSEG ≤ addr ∧ addr ≤ MAXADDR

instance (addr : Nat) : Decidable (isValidAddrChar addr) := by
  unfold isValidAddrChar; infer_instance

/-- outcome of a support-level character syscall: the caller is terminated
(programTrapHandler) or resumes with a value in v0. -/
inductive PrintOutcome where
  | trap
  | ret (v0 : Int)
deriving Repr, DecidableEq

/-- shallow embedding of the character loop of sysSupport.c
sysWriteToPrinter (lines 139-154): starting at character index i with n
characters left to send, each iteration issues PRINTCHR and reads the device
status `dev i` returned by SYS5; the loop stops early on the first status
different from READY, and the final devStatus is READY when every character
was transmitted (devStatus is initialised READY for a zero-length write). -/
def printerLoopFrom (dev : Nat → Int) (i : Nat) : Nat → Int
  | 0 => READY
  | n + 1 => if dev i = READY then printerLoopFrom dev (i + 1) n else dev i

/-- shallow embedding of sysSupport.c sysWriteToPrinter (lines 119-166), the
routine the support syscall dispatcher runs for SYS11: terminate the caller
unless virtAddr is a valid user address, 0 <= len <= PRINTER_MAXLEN, and
(for len > 0) virtAddr + len - 1 (32-bit arithmetic) is also valid; then
send the len characters; v0 receives len when the final device status is
READY and the negated status otherwise.  The device is abstracted by the
function `dev` giving the status SYS5 returns for the i-th character. -/
def sysWriteToPrinter (virtAddr : Nat) (len : Int) (dev : Nat → Int) : PrintOutcome :=
  if ¬ isValidAddrChar virtAddr ∨ len < 0 ∨ PRINTER_MAXLEN < len ∨
      (0 < len ∧ ¬ isValidAddrChar ((virtAddr + len.toNat - 1) % UINT32)) then
    .trap
  else if printerLoopFrom dev 0 len.toNat = READY then .ret len
  else .ret (- printerLoopFrom dev 0 len.toNat)

/-- helper: a run over all-READY statuses ends with status READY. -/
theorem printerLoopFrom_all_ready (dev : Nat → Int) (n i : Nat)
    (h : ∀ j, i ≤ j → j < i + n → dev j = READY) :
    printerLoopFrom dev i n = READY := by
  induction n generalizing i with
  | zero => rfl
  | succ m ih =>
      have hi : dev i = READY := h i le_rfl (by omega)
      simp only [printerLoopFrom, hi, if_pos]
      exact ih (i + 1) (fun j h1 h2 => h j (by omega) (by omega))

/-- helper: a run that first fails at index k ends with status dev k. -/
theorem printerLoopFrom_first_bad (dev : Nat → Int) (n i k : Nat)
    (hik : i ≤ k) (hkn : k < i + n) (hbad : dev k ≠ READY)
    (hgood : ∀ j, i ≤ j → j < k → dev j = READY) :
    printerLoopFrom dev i n = dev k := by
  induction n generalizing i with
  | zero => omega
  | succ m ih =>
      by_cases hk : i = k
      · subst hk
        simp only [printerLoopFrom, if_neg hbad]
      · have hi : dev i = READY := hgood i le_rfl (by omega)
        simp only [printerLoopFrom, hi, if_pos]
        exact ih (i + 1) (by omega) (by omega) (fun j h1 h2 => hgood j (by omega) h2)

/-- C9: SYS11 terminates the caller when len exceeds 128 or the byte range
escapes the user segment (either endpoint invalid, under 32-bit address
arithmetic); a length-0 write returns 0; a fully successful write returns
len; a device failure returns the negated status of the first failing
transmission. -/
theorem sysWriteToPrinter_spec (virtAddr : Nat) (len : Int) (dev : Nat → Int) (k : Nat) :
    (PRINTER_MAXLEN < len → sysWriteToPrinter virtAddr len dev = .trap) ∧
    (¬ isValidAddrChar virtAddr → sysWriteToPrinter virtAddr len dev = .trap) ∧
    (0 < len → ¬ isValidAddrChar ((virtAddr + len.toNat - 1) % UINT32) →
      sysWriteToPrinter virtAddr len dev = .trap) ∧
    (isValidAddrChar virtAddr → len = 0 → sysWriteToPrinter virtAddr len dev = .ret 0) ∧
    (isValidAddrChar virtAddr → 0 ≤ len → len ≤ PRINTER_MAXLEN →
      isValidAddrChar ((virtAddr + len.toNat - 1) % UINT32) →
      (∀ i, i < len.toNat → dev i = READY) →
      sysWriteToPrinter virtAddr len dev = .ret len) ∧
    (isValidAddrChar virtAddr → 0 ≤ len → len ≤ PRINTER_MAXLEN →
      isValidAddrChar ((virtAddr + len.toNat - 1) % UINT32) →
      k < len.toNat → dev k ≠ READY → (∀ j, j < k → dev j = READY) →
      sysWriteToPrinter virtAddr len dev = .ret (- dev k)) := by
  refine ⟨?_, ?_, ?_, ?_, ?_, ?_⟩
  · intro hlong
    unfold sysWriteToPrinter
    rw [if_pos (Or.inr (Or.inr (Or.inl hlong)))]
  · intro hbad
    unfold sysWriteToPrinter
    rw [if_pos (Or.inl hbad)]
  · intro hpos hbad
    unfold sysWriteToPrinter
    rw [if_pos (Or.inr (Or.inr (Or.inr ⟨hpos, hbad⟩)))]
  · intro hva h0
    subst h0
    unfold sysWriteToPrinter
    have hcond : ¬ (¬ isValidAddrChar virtAddr ∨ (0 : Int) < 0 ∨ PRINTER_MAXLEN < (0 : Int) ∨
        ((0 : Int) < 0 ∧ ¬ isValidAddrChar ((virtAddr + (0 : Int).toNat - 1) % UINT32))) := by
      push_neg
      refine ⟨hva, le_rfl, by norm_num [PRINTER_MAXLEN], ?_⟩
      intro h
      exact absurd h (by norm_num)
    rw [if_neg hcond]
    norm_num [printerLoopFrom]
  · intro hva h0 hmax hend hall
    unfold sysWriteToPrinter
    have hcond : ¬ (¬ isValidAddrChar virtAddr ∨ len < 0 ∨ PRINTER_MAXLEN < len ∨
        (0 < len ∧ ¬ isValidAddrChar ((virtAddr + len.toNat - 1) % UINT32))) := by
      push_neg
      exact ⟨hva, h0, hmax, fun _ => hend⟩
    rw [if_neg hcond]
    have hloop : printerLoopFrom dev 0 len.toNat = READY :=
      printerLoopFrom_all_ready dev len.toNat 0 (fun j h1 h2 => hall j (by omega))
    rw [if_pos hloop]
  · intro hva h0 hmax hend hk hbad hgood
    unfold sysWriteToPrinter
    have hcond : ¬ (¬ isValidAddrChar virtAddr ∨ len < 0 ∨ PRINTER_MAXLEN < len ∨
        (0 < len ∧ ¬ isValidAddrChar ((virtAddr + len.toNat - 1) % UINT32))) := by
      push_neg
      exact ⟨hva, h0, hmax, fun _ => hend⟩
    rw [if_neg hcond]
    have hloop : printerLoopFrom dev 0 len.toNat = dev k :=
      printerLoopFrom_first_bad dev len.toNat 0 k (by omega) (by omega) hbad
        (fun j h1 h2 => hgood j h2)
    rw [hloop, if_neg hbad]

/-- C9 witness: the printer-write behaviour evaluated concretely — an
over-long write and writes whose byte range leaves the user segment trap;
length 0 returns 0; two READY transmissions return 2; a device answering
status 7 on the second character returns -7. -/
theorem sysWriteToPrinter_spec_witness :
    sysWriteToPrinter 0x80002000 200 (fun _ => READY) = .trap ∧
    sysWriteToPrinter 0x00000100 2 (fun _ => READY) = .trap ∧
    sysWriteToPrinter 0xFFFFFFFF 2 (fun _ => READY) = .trap ∧
    sysWriteToPrinter 0x80002000 0 (fun _ => READY) = .ret 0 ∧
    sysWriteToPrinter 0x80002000 2 (fun _ => READY) = .ret 2 ∧
    sysWriteToPrinter 0x80002000 2 (fun i => if i = 0 then READY else 7) = .ret (-7) :=
  ⟨(sysWriteToPrinter_spec 0x80002000 200 (fun _ => READY) 0).1 (by decide),
   (sysWriteToPrinter_spec 0x00000100 2 (fun _ => READY) 0).2.1 (by decide),
   (sysWriteToPrinter_spec 0xFFFFFFFF 2 (fun _ => READY) 0).2.2.1 (by decide) (by decide),
   (sysWriteToPrinter_spec 0x80002000 0 (fun _ => READY) 0).2.2.2.1 (by decide) rfl,
   (sysWriteToPrinter_spec 0x80002000 2 (fun _ => READY) 0).2.2.2.2.1 (by decide)
     (by decide) (by decide) (by decide) (fun i _ => rfl),
   (sysWriteToPrinter_spec 0x80002000 2 (fun i => if i = 0 then READY else 7) 1).2.2.2.2.2
     (by decide) (by decide) (by decide) (by decide) (by decide) (by decide)
     (fun j hj => by
       have hj0 : j = 0 := by omega
       subst hj0
       rfl)⟩

/- ============== C7: FIFO release order of blocked processes (pcb.c / asl.c) ============== -/

/-- pcb.c mkEmptyProcQ: process queues are circular doubly-linked lists with
a tail pointer and head = tail->next; a queue is modelled as the list of pcb
identifiers in head-to-tail order, the empty queue being []. -/
def mkEmptyProcQ : List Nat := []

/-- pcb.c emptyProcQ. -/
def emptyProcQ (q : List Nat) : Bool := q.isEmpty

/-- pcb.c headProcQ: the pcb at the head (tail->next) without removal. -/
def headProcQ (q : List Nat) : Option Nat := q.head?

/-- pcb.c insertProcQ (lines 139-156): insert at the tail of the queue. -/
def insertProcQ (q : List Nat) (p : Nat) : List Nat := q ++ [p]

/-- pcb.c removeProcQ (line 166): remove and return the head of the queue. -/
def removeProcQ (q : List Nat) : Option Nat × List Nat := (q.head?, q.tail)

/-- a semaphore descriptor (asl.c semd_t): the semaphore address (modelled
as its numeric value, the ASL sort key) and its FIFO queue of blocked pcbs. -/
structure Semd where
  s_semAdd : Nat
  s_procQ : List Nat
deriving Repr, DecidableEq

/-- the ASL state: the active list in ascending key order (the two dummy
sentinels at keys 0 and MAXINT are left implicit) and the number of
descriptors remaining on the semdFree list. -/
structure ASL where
  active : List Semd
  freeCount : Nat
deriving Repr, DecidableEq

/-- the find step of asl.c findPrevSemd (lines 96-108) followed by the key
test its callers perform: walk past the keys below s and report the queue of
the descriptor with key s, if any. -/
def aslLookup : List Semd → Nat → Option (List Nat)
  | [], _ => none
  | e :: r, s =>
    if e.s_semAdd < s then aslLookup r s
    else if e.s_semAdd = s then some e.s_procQ
    else none

/-- in-place replacement of the queue of the descriptor with key s (the C
mutates semd->s_procQ through the pointer found by findPrevSemd). -/
def aslSetQueue : List Semd → Nat → List Nat → List Semd
  | [], _, _ => []
  | e :: r, s, q =>
    if e.s_semAdd < s then e :: aslSetQueue r s q
    else if e.s_semAdd = s then ⟨s, q⟩ :: r
    else e :: r

/-- unlink of the descriptor with key s (asl.c tryFreeSemd, lines 119-125:
semd_prev->s_next = semd->s_next, then the descriptor goes to semdFree). -/
def aslRemoveKey : List Semd → Nat → List Semd
  | [], _ => []
  | e :: r, s =>
    if e.s_semAdd < s then e :: aslRemoveKey r s
    else if e.s_semAdd = s then r
    else e :: r

/-- sorted insertion of a fresh descriptor after the last key below it
(asl.c insertBlocked lines 151-155: semd->s_next = semd_prev->s_next;
semd_prev->s_next = semd). -/
def aslInsertSorted : List Semd → Semd → List Semd
  | [], e => [e]
  | x :: r, e =>
    if x.s_semAdd < e.s_semAdd then x :: aslInsertSorted r e else e :: x :: r

/-- shallow embedding of asl.c insertBlocked (lines 139-162): if a
descriptor for semAdd is active, append the pcb at the tail of its queue;
otherwise allocate a descriptor (returning the error flag TRUE when the
free list is empty), link it into the sorted ASL and insert the pcb into its
fresh queue (the C also stamps p->p_semAdd, which the pcb-id model leaves
implicit). -/
def insertBlocked (s p : Nat) (asl : ASL) : Bool × ASL :=
  match aslLookup asl.active s with
  | some q => (false, ⟨aslSetQueue asl.active s (insertProcQ q p), asl.freeCount⟩)
  | none =>
    if asl.freeCount = 0 then (true, asl)
    else (false, ⟨aslInsertSorted asl.active ⟨s, insertProcQ mkEmptyProcQ p⟩,
                  asl.freeCount - 1⟩)

/-- shallow embedding of asl.c removeBlocked (lines 174-188): if no
descriptor for semAdd is active return NULL; otherwise removeProcQ the head
of its queue (clearing p->p_semAdd, implicit here) and free the descriptor
when its queue becomes empty. -/
def removeBlocked (s : Nat) (asl : ASL) : Option Nat × ASL :=
  match aslLookup asl.active s with
  | none => (none, asl)
  | some q =>
    if (removeProcQ q).2.isEmpty then
      ((removeProcQ q).1, ⟨aslRemoveKey asl.active s, asl.freeCount + 1⟩)
    else
      ((removeProcQ q).1, ⟨aslSetQueue asl.active s (removeProcQ q).2, asl.freeCount⟩)

/-- the queue of pcbs blocked on semaphore s ([] when s is not active). -/
def queueOf (asl : ASL) (s : Nat) : List Nat := (aslLookup asl.active s).getD []

/-- ASL invariant: keys strictly ascending (maintained by the sorted insert
between the 0 and MAXINT sentinels). -/
def ASLSorted (asl : ASL) : Prop :=
  asl.active.Pairwise (fun a b => a.s_semAdd < b.s_semAdd)

/-- ASL invariant: an active descriptor has a non-empty queue (asl.c header
comment: a descriptor with an empty queue is deleted from the ASL). -/
def ASLNonempty (asl : ASL) : Prop :=
  ∀ e ∈ asl.active, e.s_procQ ≠ []

/-- helper: a successful lookup returns the queue of a member descriptor. -/
theorem aslLookup_mem (l : List Semd) (s : Nat) (q : List Nat)
    (h : aslLookup l s = some q) : (⟨s, q⟩ : Semd) ∈ l := by
  induction l with
  | nil => simp [aslLookup] at h
  | cons e r ih =>
      simp only [aslLookup] at h
      split_ifs at h with h1 h2
      · exact List.mem_cons_of_mem e (ih h)
      · have hq := Option.some.inj h
        subst h2
        subst hq
        exact List.mem_cons_self _ _

/-- helper: aslSetQueue preserves the key sequence. -/
theorem aslSetQueue_keys (l : List Semd) (s : Nat) (q : List Nat) :
    (aslSetQueue l s q).map Semd.s_semAdd = l.map Semd.s_semAdd := by
  induction l with
  | nil => rfl
  | cons e r ih =>
      simp only [aslSetQueue]
      split_ifs with h1 h2
      · simp [ih]
      · simp [h2]
      · rfl

/-- helper: members of aslSetQueue come from the old list or are the
replaced descriptor. -/
theorem aslSetQueue_mem (l : List Semd) (s : Nat) (q : List Nat) (x : Semd)
    (hx : x ∈ aslSetQueue l s q) : x ∈ l ∨ x = ⟨s, q⟩ := by
  induction l with
  | nil => simp [aslSetQueue] at hx
  | cons e r ih =>
      simp only [aslSetQueue] at hx
      split_ifs at hx with h1 h2
      · rcases List.mem_cons.mp hx with hx | hx
        · exact Or.inl (hx ▸ List.mem_cons_self _ _)
        · rcases ih hx with h | h
          · exact Or.inl (List.mem_cons_of_mem _ h)
          · exact Or.inr h
      · rcases List.mem_cons.mp hx with hx | hx
        · exact Or.inr hx
        · exact Or.inl (List.mem_cons_of_mem _ hx)
      · exact Or.inl hx

/-- helper: after aslSetQueue the lookup of s returns the new queue. -/
theorem aslLookup_setQueue (l : List Semd) (s : Nat) (q q0 : List Nat)
    (h : aslLookup l s = some q0) :
    aslLookup (aslSetQueue l s q) s = some q := by
  induction l with
  | nil => simp [aslLookup] at h
  | cons e r ih =>
      simp only [aslLookup] at h
      simp only [aslSetQueue]
      by_cases h1 : e.s_semAdd < s
      · rw [if_pos h1] at h
        rw [if_pos h1]
        simp only [aslLookup, if_pos h1]
        exact ih h
      · rw [if_neg h1] at h
        rw [if_neg h1]
        by_cases h2 : e.s_semAdd = s
        · rw [if_pos h2]
          simp [aslLookup]
        · rw [if_neg h2] at h
          cases h

/-- helper: members of aslRemoveKey come from the old list. -/
theorem aslRemoveKey_mem (l : List Semd) (s : Nat) (x : Semd)
    (hx : x ∈ aslRemoveKey l s) : x ∈ l := by
  induction l with
  | nil => simp [aslRemoveKey] at hx
  | cons e r ih =>
      simp only [aslRemoveKey] at hx
      split_ifs at hx with h1 h2
      · rcases List.mem_cons.mp hx with hx | hx
        · exact hx ▸ List.mem_cons_self _ _
        · exact List.mem_cons_of_mem _ (ih hx)
      · exact List.mem_cons_of_mem _ hx
      · exact hx

/-- helper: members of aslInsertSorted are the new descriptor or old members. -/
theorem aslInsertSorted_mem (l : List Semd) (e x : Semd)
    (hx : x ∈ aslInsertSorted l e) : x = e ∨ x ∈ l := by
  induction l with
  | nil =>
      simp only [aslInsertSorted] at hx
      rcases List.mem_cons.mp hx with hx | hx
      · exact Or.inl hx
      · cases hx
  | cons y r ih =>
      simp only [aslInsertSorted] at hx
      split_ifs at hx with h1
      · rcases List.mem_cons.mp hx with hx | hx
        · exact Or.inr (hx ▸ List.mem_cons_self _ _)
        · rcases ih hx with h | h
          · exact Or.inl h
          · exact Or.inr (List.mem_cons_of_mem _ h)
      · rcases List.mem_cons.mp hx with hx | hx
        · exact Or.inl hx
        · exact Or.inr hx

/-- helper: aslSetQueue preserves sortedness. -/
theorem ASLSorted_setQueue (l : List Semd) (s : Nat) (q : List Nat)
    (h : l.Pairwise (fun a b => a.s_semAdd < b.s_semAdd)) :
    (aslSetQueue l s q).Pairwise (fun a b => a.s_semAdd < b.s_semAdd) := by
  induction l with
  | nil => exact List.Pairwise.nil
  | cons e r ih =>
      rcases List.pairwise_cons.mp h with ⟨hall, hr⟩
      simp only [aslSetQueue]
      split_ifs with h1 h2
      · refine List.pairwise_cons.mpr ⟨?_, ih hr⟩
        intro x hx
        rcases aslSetQueue_mem r s q x hx with h | h
        · exact hall x h
        · subst h
          exact h1
      · refine List.pairwise_cons.mpr ⟨?_, hr⟩
        intro x hx
        have hxk := hall x hx
        show s < x.s_semAdd
        omega
      · exact h

/-- helper: lookup after aslRemoveKey finds nothing (keys are unique in a
sorted list). -/
theorem aslLookup_removeKey (l : List Semd) (s : Nat)
    (h : l.Pairwise (fun a b => a.s_semAdd < b.s_semAdd)) :
    aslLookup (aslRemoveKey l s) s = none := by
  induction l with
  | nil => rfl
  | cons e r ih =>
      rcases List.pairwise_cons.mp h with ⟨hall, hr⟩
      simp only [aslRemoveKey]
      split_ifs with h1 h2
      · simp only [aslLookup, if_pos h1]
        exact ih hr
      · cases r with
        | nil => rfl
        | cons y t =>
            have hy : e.s_semAdd < y.s_semAdd := hall y (List.mem_cons_self _ _)
            simp only [aslLookup]
            rw [if_neg (by omega), if_neg (by omega)]
      · simp only [aslLookup, if_neg h1, if_neg h2]

/-- helper: aslRemoveKey preserves sortedness. -/
theorem ASLSorted_removeKey (l : List Semd) (s : Nat)
    (h : l.Pairwise (fun a b => a.s_semAdd < b.s_semAdd)) :
    (aslRemoveKey l s).Pairwise (fun a b => a.s_semAdd < b.s_semAdd) := by
  induction l with
  | nil => exact List.Pairwise.nil
  | cons e r ih =>
      rcases List.pairwise_cons.mp h with ⟨hall, hr⟩
      simp only [aslRemoveKey]
      split_ifs with h1 h2
      · refine List.pairwise_cons.mpr ⟨?_, ih hr⟩
        intro x hx
        exact hall x (aslRemoveKey_mem r s x hx)
      · exact hr
      · exact h

/-- helper: lookup after a sorted insert of a fresh key finds the new queue. -/
theorem aslLookup_insertSorted (l : List Semd) (s : Nat) (q : List Nat)
    (h : aslLookup l s = none) :
    aslLookup (aslInsertSorted l ⟨s, q⟩) s = some q := by
  induction l with
  | nil =>
      simp [aslInsertSorted, aslLookup]
  | cons x r ih =>
      simp only [aslLookup] at h
      simp only [aslInsertSorted]
      by_cases h1 : x.s_semAdd < s
      · rw [if_pos h1] at h
        rw [if_pos h1]
        simp only [aslLookup, if_pos h1]
        exact ih h
      · rw [if_neg h1]
        simp [aslLookup]

/-- helper: sorted insert of a fresh key preserves sortedness. -/
theorem ASLSorted_insertSorted (l : List Semd) (s : Nat) (q : List Nat)
    (hs : l.Pairwise (fun a b => a.s_semAdd < b.s_semAdd))
    (h : aslLookup l s = none) :
    (aslInsertSorted l ⟨s, q⟩).Pairwise (fun a b => a.s_semAdd < b.s_semAdd) := by
  induction l with
  | nil => simp [aslInsertSorted]
  | cons x r ih =>
      rcases List.pairwise_cons.mp hs with ⟨hall, hr⟩
      simp only [aslLookup] at h
      simp only [aslInsertSorted]
      split_ifs with h1
      · rw [if_pos h1] at h
        refine List.pairwise_cons.mpr ⟨?_, ih hr h⟩
        intro y hy
        rcases aslInsertSorted_mem r ⟨s, q⟩ y hy with hh | hh
        · subst hh
          exact h1
        · exact hall y hh
      · rw [if_neg h1] at h
        have hxs : x.s_semAdd ≠ s := by
          intro he
          rw [if_pos he] at h
          cases h
        have hlt : s < x.s_semAdd := by omega
        refine List.pairwise_cons.mpr ⟨?_, hs⟩
        intro y hy
        rcases List.mem_cons.mp hy with hh | hh
        · subst hh
          exact hlt
        · have hyk := hall y hh
          show s < y.s_semAdd
          omega

/-- spec of insertBlocked: on success the semaphore's queue gains p at the
tail (a fresh descriptor holding [p] when the semaphore was inactive); on
failure (descriptor pool exhausted) the ASL is unchanged; both invariants
are preserved. -/
theorem insertBlocked_spec (asl : ASL) (s p : Nat)
    (hs : ASLSorted asl) (hne : ASLNonempty asl) :
    ((insertBlocked s p asl).1 = false →
      queueOf (insertBlocked s p asl).2 s = queueOf asl s ++ [p]) ∧
    ((insertBlocked s p asl).1 = true → (insertBlocked s p asl).2 = asl) ∧
    ASLSorted (insertBlocked s p asl).2 ∧ ASLNonempty (insertBlocked s p asl).2 := by
  unfold insertBlocked
  cases hl : aslLookup asl.active s with
  | some q =>
      simp only
      refine ⟨?_, ?_, ?_, ?_⟩
      · intro _
        unfold queueOf
        simp only [hl, Option.getD_some]
        rw [aslLookup_setQueue asl.active s (insertProcQ q p) q hl]
        rfl
      · intro h
        cases h
      · exact ASLSorted_setQueue asl.active s (insertProcQ q p) hs
      · intro e he
        rcases aslSetQueue_mem asl.active s (insertProcQ q p) e he with h | h
        · exact hne e h
        · subst h
          simp [insertProcQ]
  | none =>
      by_cases hf : asl.freeCount = 0
      · rw [if_pos hf]
        refine ⟨?_, fun _ => rfl, hs, hne⟩
        intro h
        cases h
      · rw [if_neg hf]
        refine ⟨?_, ?_, ?_, ?_⟩
        · intro _
          unfold queueOf
          simp only [hl, Option.getD_none]
          rw [aslLookup_insertSorted asl.active s (insertProcQ mkEmptyProcQ p) hl]
          rfl
        · intro h
          cases h
        · exact ASLSorted_insertSorted asl.active s (insertProcQ mkEmptyProcQ p) hs hl
        · intro e he
          rcases aslInsertSorted_mem asl.active ⟨s, insertProcQ mkEmptyProcQ p⟩ e he with h | h
          · subst h
            simp [insertProcQ, mkEmptyProcQ]
          · exact hne e h

/-- spec of removeBlocked: it returns the head of the semaphore's queue and
leaves the tail (the descriptor being freed when the tail is empty); both
invariants are preserved. -/
theorem removeBlocked_spec (asl : ASL) (s : Nat)
    (hs : ASLSorted asl) (hne : ASLNonempty asl) :
    (removeBlocked s asl).1 = (queueOf asl s).head? ∧
    queueOf (removeBlocked s asl).2 s = (queueOf asl s).tail ∧
    ASLSorted (removeBlocked s asl).2 ∧ ASLNonempty (removeBlocked s asl).2 := by
  unfold removeBlocked
  cases hl : aslLookup asl.active s with
  | none =>
      simp only
      refine ⟨?_, ?_, hs, hne⟩
      · unfold queueOf
        simp [hl]
      · unfold queueOf
        simp [hl]
  | some q =>
      have hqne : q ≠ [] := hne ⟨s, q⟩ (aslLookup_mem asl.active s q hl)
      cases q with
      | nil => exact absurd rfl hqne
      | cons h t =>
          simp only [removeProcQ, List.head?_cons, List.tail_cons]
          by_cases ht : t.isEmpty
          · have ht' : t = [] := by
              cases t
              · rfl
              · simp [List.isEmpty] at ht
            subst ht'
            rw [if_pos ht]
            refine ⟨?_, ?_, ?_, ?_⟩
            · unfold queueOf
              simp [hl]
            · unfold queueOf
              simp only [hl, Option.getD_some, List.tail_cons]
              rw [aslLookup_removeKey asl.active s hs]
              rfl
            · exact ASLSorted_removeKey asl.active s hs
            · intro e he
              exact hne e (aslRemoveKey_mem asl.active s e he)
          · rw [if_neg ht]
            refine ⟨?_, ?_, ?_, ?_⟩
            · unfold queueOf
              simp [hl]
            · unfold queueOf
              simp only [hl, Option.getD_some, List.tail_cons]
              rw [aslLookup_setQueue asl.active s t (h :: t) hl]
              rfl
            · exact ASLSorted_setQueue asl.active s t hs
            · intro e he
              rcases aslSetQueue_mem asl.active s t e he with hh | hh
              · exact hne e hh
              · subst hh
                intro hcontra
                have ht2 : t = [] := hcontra
                subst ht2
                exact ht rfl

/-- one step of a client on semaphore s: a SYS3 P of pcb p (insertBlocked)
or a SYS4 V (removeBlocked of the longest waiter). -/
inductive SemOp where
  | ins (p : Nat)
  | rem
deriving Repr, DecidableEq

/-- result of running a sequence of operations against one semaphore: the
final ASL, the pcbs released by the removes in release order, and the pcbs
actually enqueued by the (successful) inserts in arrival order. -/
structure RunResult where
  final : ASL
  released : List Nat
  enqueued : List Nat
deriving Repr, DecidableEq

/-- run a sequence of insertBlocked / removeBlocked operations on
semaphore s, collecting the release and arrival orders. -/
def runOps (s : Nat) (asl : ASL) : List SemOp → RunResult
  | [] => ⟨asl, [], []⟩
  | SemOp.ins p :: rest =>
    (fun k => ⟨k.final, k.released,
      (if (insertBlocked s p asl).1 then [] else [p]) ++ k.enqueued⟩)
      (runOps s (insertBlocked s p asl).2 rest)
  | SemOp.rem :: rest =>
    (fun k => ⟨k.final, (removeBlocked s asl).1.toList ++ k.released, k.enqueued⟩)
      (runOps s (removeBlocked s asl).2 rest)

/-- C7: blocked processes are released in P-arrival order.  For every
semaphore s, every well-formed ASL and every sequence of insertBlocked /
removeBlocked operations on s, the pcbs released by the removes followed by
the queue remaining at the end equal the queue at the start followed by the
pcbs enqueued by the inserts: insertBlocked appends at the tail of the
per-semaphore FIFO queue and removeBlocked removes at its head, so SYS4
always wakes the longest-waiting SYS3 caller. -/
theorem blocked_queue_fifo (s : Nat) (ops : List SemOp) (asl : ASL)
    (hs : ASLSorted asl) (hne : ASLNonempty asl) :
    (runOps s asl ops).released ++ queueOf (runOps s asl ops).final s =
      queueOf asl s ++ (runOps s asl ops).enqueued := by
  induction ops generalizing asl with
  | nil => simp [runOps]
  | cons op rest ih =>
      cases op with
      | ins p =>
          obtain ⟨hok, herr, hs2, hne2⟩ := insertBlocked_spec asl s p hs hne
          simp only [runOps]
          cases hflag : (insertBlocked s p asl).1 with
          | true =>
              have heq := herr hflag
              rw [heq]
              simpa using ih asl hs hne
          | false =>
              have hq := hok hflag
              have hrec := ih (insertBlocked s p asl).2 hs2 hne2
              rw [hq] at hrec
              rw [hrec]
              simp
      | rem =>
          obtain ⟨hhead, htail, hs2, hne2⟩ := removeBlocked_spec asl s hs hne
          simp only [runOps]
          have := ih (removeBlocked s asl).2 hs2 hne2
          rw [List.append_assoc, this, htail, hhead]
          have hsplit : (queueOf asl s).head?.toList ++ (queueOf asl s).tail =
              queueOf asl s := by
            cases queueOf asl s with
            | nil => rfl
            | cons a l => rfl
          rw [← List.append_assoc, hsplit]

/-- C7 witness: three P arrivals 4, 5, 6 followed by three V releases on
semaphore 100 release 4, 5, 6 in that order, starting from the empty ASL
with the full descriptor pool of 20. -/
theorem blocked_queue_fifo_witness :
    (runOps 100 ⟨[], 20⟩
        [SemOp.ins 4, SemOp.ins 5, SemOp.ins 6, SemOp.rem, SemOp.rem, SemOp.rem]).released ++
      queueOf (runOps 100 ⟨[], 20⟩
        [SemOp.ins 4, SemOp.ins 5, SemOp.ins 6, SemOp.rem, SemOp.rem, SemOp.rem]).final 100 =
      queueOf ⟨[], 20⟩ 100 ++
        (runOps 100 ⟨[], 20⟩
          [SemOp.ins 4, SemOp.ins 5, SemOp.ins 6, SemOp.rem, SemOp.rem, SemOp.rem]).enqueued :=
  blocked_queue_fifo 100
    [SemOp.ins 4, SemOp.ins 5, SemOp.ins 6, SemOp.rem, SemOp.rem, SemOp.rem]
    ⟨[], 20⟩ (by simp [ASLSorted]) (by intro e he; simp [ASL.active] at he)
